import Mathlib

/-!
Verification of the CRUD-API server (src/index.ts): an in-memory user store,
a validating router over HTTP method + path segments, and a cluster-based
load balancer. The definitions below are a shallow embedding of the
TypeScript source; JSON request bodies are modelled by the dynamic value
type `JVal`, since the runtime values reaching the handlers come from
JSON.parse and are not constrained by the TypeScript annotations.
-/

/-- A JavaScript number as far as the handlers observe it: either NaN or an
ordinary (finite) numeric value. JSON.parse only ever produces finite
numbers, but `validateUserData` tests Number.isNaN, so the NaN case is kept. -/
inductive JsNum where
  | nan : JsNum
  | val : Rat → JsNum
deriving DecidableEq, Repr

/-- A parsed JSON value (the result of JSON.parse): the dynamic type of the
request bodies reaching `createUser` and `updateUser`. Objects are
association lists of distinct keys, as produced by JSON.parse. -/
inductive JVal where
  | str : String → JVal
  | num : JsNum → JVal
  | bool : Bool → JVal
  | null : JVal
  | arr : List JVal → JVal
  | obj : List (String × JVal) → JVal

/-- Property access `v.k` on a parsed JSON value: `some` the value when `v`
is an object with key `k`, `none` (JavaScript undefined) otherwise.
Destructuring from strings, numbers, booleans and arrays yields undefined
for the keys the handlers read. -/
def getField : JVal → String → Option JVal
  | JVal.obj fields, k => fields.lookup k
  | _, _ => none

/-- A stored user record. The fields are `JVal` because `updateUser`
spreads the raw parsed body over the record, so at runtime a stored field
can hold any JSON value, whatever the `User` interface annotation says. -/
structure User where
  id : JVal
  name : JVal
  age : JVal
  hobbies : JVal

/-- JavaScript strict equality `u.id === userId` where `userId` is a
string: true exactly when `u.id` is that same string (`===` between a
string and a value of another runtime type is false; `===` between a
string and a distinct object reference is false). -/
def idMatches (v : JVal) (userId : String) : Bool :=
  match v with
  | JVal.str s => s == userId
  | _ => false

/-- The body handed to `sendResponse` (which serializes it as JSON):
the whole user list, a single user, a `{ message: ... }` object, or the
empty object `{}` sent by `deleteUser`. -/
inductive RespBody where
  | users : List User → RespBody
  | user : User → RespBody
  | message : String → RespBody
  | emptyObj : RespBody

/-- An HTTP response as produced by `sendResponse`: status code plus the
JSON body. -/
structure Resp where
  status : Nat
  body : RespBody

/-- Modelled from the spec: the third-party uuid library's `validate`
(the "UUID-validity check" of the data model), absent from src/. A valid
id is 36 characters laid out as five groups of hex digits (8-4-4-4-12)
separated by hyphens at positions 8, 13, 18 and 23. -/
def isValidUUID (id : String) : Bool :=
  let cs := id.toList
  cs.length == 36 &&
    (List.range 36).all fun i =>
      if i == 8 || i == 13 || i == 18 || i == 23 then
        cs.getD i 'x' == '-'
      else
        (cs.getD i 'x').isDigit ||
          ('a' ≤ cs.getD i 'x' && cs.getD i 'x' ≤ 'f') ||
          ('A' ≤ cs.getD i 'x' && cs.getD i 'x' ≤ 'F')

/-- `getAllUsers`: respond 200 with the whole store. -/
def getAllUsers (users : List User) : Resp :=
  ⟨200, RespBody.users users⟩

/-- The `User with id ${userId} not found.` message template. -/
def notFoundMsg (userId : String) : String :=
  "User with id " ++ userId ++ " not found."

/-- `getUserById`: reject non-UUID ids with 400 before the store is
consulted, then `users.find` on strict id equality; 404 when absent. -/
def getUserById (users : List User) (userId : String) : Resp :=
  if !isValidUUID userId then
    ⟨400, RespBody.message "Invalid userId format"⟩
  else
    match users.find? (fun u => idMatches u.id userId) with
    | none => ⟨404, RespBody.message (notFoundMsg userId)⟩
    | some u => ⟨200, RespBody.user u⟩

/-- `typeof x === 'string'` on a possibly-undefined property. -/
def typeofString : Option JVal → Bool
  | some (JVal.str _) => true
  | _ => false

/-- String.prototype.trim: drop whitespace from both ends. -/
def jsTrim (s : String) : String :=
  String.mk
    (((s.toList.dropWhile Char.isWhitespace).reverse.dropWhile
        Char.isWhitespace).reverse)

/-- `x.trim() === ''` on a property known to be a string (false on
anything else, matching its use guarded by the typeof test). -/
def trimmedEmpty : Option JVal → Bool
  | some (JVal.str s) => jsTrim s == ""
  | _ => false

/-- `typeof x === 'number'` on a possibly-undefined property. -/
def typeofNumber : Option JVal → Bool
  | some (JVal.num _) => true
  | _ => false

/-- `Number.isNaN(x)` on a possibly-undefined property. -/
def numberIsNaN : Option JVal → Bool
  | some (JVal.num JsNum.nan) => true
  | _ => false

/-- `Array.isArray(x) && x.every(h => typeof h === 'string')` on a
possibly-undefined property. -/
def isArrayAllStrings : Option JVal → Bool
  | some (JVal.arr xs) =>
      xs.all fun v => match v with | JVal.str _ => true | _ => false
  | _ => false

/-- `validateUserData`: the three sequential checks of the source, on the
destructured `name`, `age` and `hobbies` properties. No check involves an
`id` property. -/
def validateUserData (data : JVal) : Bool :=
  let name := getField data "name"
  let age := getField data "age"
  let hobbies := getField data "hobbies"
  if !typeofString name || trimmedEmpty name then false
  else if !typeofNumber age || numberIsNaN age then false
  else if !isArrayAllStrings hobbies then false
  else true

/-- `createUser`: validate, then append a record carrying a server-
generated id. The fresh id produced by uuidv4() is passed in as `newId`;
any `id` property of the body is ignored. The `getD JVal.null` defaults
are dead: validation guarantees the three properties are present. -/
def createUser (users : List User) (newId : String) (body : JVal) :
    List User × Resp :=
  if !validateUserData body then
    (users, ⟨400, RespBody.message "Invalid user data."⟩)
  else
    let newUser : User :=
      { id := JVal.str newId,
        name := (getField body "name").getD JVal.null,
        age := (getField body "age").getD JVal.null,
        hobbies := (getField body "hobbies").getD JVal.null }
    (users ++ [newUser], ⟨201, RespBody.user newUser⟩)

/-- The object spread `{ ...u, ...body }` restricted to the four record
fields: a property present on `body` overwrites, an absent one keeps the
stored value. Spreading a non-object (including null) contributes no
properties. -/
def mergeUser (u : User) (body : JVal) : User :=
  { id := (getField body "id").getD u.id,
    name := (getField body "name").getD u.name,
    age := (getField body "age").getD u.age,
    hobbies := (getField body "hobbies").getD u.hobbies }

/-- `users.findIndex` followed by `users[userIndex] = updatedUser`:
replace the first record whose id strictly equals `userId` by its merge
with the body, returning the new store and the merged record; `none` when
no record matches. -/
def replaceFirstById : List User → String → JVal → Option (List User × User)
  | [], _, _ => none
  | u :: rest, userId, body =>
      if idMatches u.id userId then
        let updated := mergeUser u body
        some (updated :: rest, updated)
      else
        match replaceFirstById rest userId body with
        | none => none
        | some (rest2, updated) => some (u :: rest2, updated)

/-- `updateUser`: 400 on non-UUID id before the store is consulted, 404
when no record matches, otherwise store the merged record in place and
return it with 200. -/
def updateUser (users : List User) (userId : String) (body : JVal) :
    List User × Resp :=
  if !isValidUUID userId then
    (users, ⟨400, RespBody.message "Invalid userId format."⟩)
  else
    match replaceFirstById users userId body with
    | none => (users, ⟨404, RespBody.message (notFoundMsg userId)⟩)
    | some (users2, updated) => (users2, ⟨200, RespBody.user updated⟩)

/-- `users.findIndex` followed by `users.splice(userIndex, 1)`: remove the
first record whose id strictly equals `userId`; `none` when absent. -/
def removeFirstById : List User → String → Option (List User)
  | [], _ => none
  | u :: rest, userId =>
      if idMatches u.id userId then some rest
      else (removeFirstById rest userId).map (u :: ·)

/-- `deleteUser`: 400 on non-UUID id before the store is consulted, 404
when no record matches, otherwise splice the record out and respond 204
with the empty object. -/
def deleteUser (users : List User) (userId : String) :
    List User × Resp :=
  if !isValidUUID userId then
    (users, ⟨400, RespBody.message "Invalid userId format."⟩)
  else
    match removeFirstById users userId with
    | none => (users, ⟨404, RespBody.message (notFoundMsg userId)⟩)
    | some users2 => (users2, ⟨204, RespBody.emptyObj⟩)

/-- String.prototype.split('/') over the character list: cut at every
slash, keeping empty pieces. -/
def splitSlash : List Char → List Char → List String
  | [], acc => [String.mk acc.reverse]
  | c :: rest, acc =>
      if c == '/' then String.mk acc.reverse :: splitSlash rest []
      else splitSlash rest (c :: acc)

/-- `req.url?.split('/').filter(Boolean)`: split on every slash and drop
the empty segments (the only falsy strings). -/
def splitPath (url : String) : List String :=
  (splitSlash url.toList []).filter (fun s => s != "")

/-- A concrete well-formed id, as uuidv4() would produce. -/
def uuidSample : String := "123e4567-e89b-12d3-a456-426614174000"

/-- A concrete stored record, as a successful create would leave it. -/
def userSample : User :=
  { id := JVal.str uuidSample,
    name := JVal.str "John Doe",
    age := JVal.num (JsNum.val 30),
    hobbies := JVal.arr [JVal.str "reading", JVal.str "sports"] }

/-- A concrete create body passing `validateUserData`. -/
def goodBody : JVal :=
  JVal.obj
    [("name", JVal.str "John Doe"),
     ("age", JVal.num (JsNum.val 30)),
     ("hobbies", JVal.arr [JVal.str "reading", JVal.str "sports"])]

/-- The response sent when JSON.parse throws in `parseRequestBody`, or when
the callback it wraps throws (its try block covers both). -/
def invalidJson : Resp :=
  ⟨400, RespBody.message "Invalid JSON format."⟩

/-- The body of `requestListener` after `urlParts` has been computed:
namespace check on the first two segments, then the method/arity chain.
The parsed body arrives as `raw : Option JVal` (`none` when JSON.parse
threw). A POST body of null makes the destructuring in `validateUserData`
throw inside the parse callback, so it lands in the same catch and yields
the same response as malformed JSON. -/
def routeParts (users : List User) (newId : String) (method : String)
    (urlParts : List String) (raw : Option JVal) : List User × Resp :=
  if urlParts.get? 0 == some "api" && urlParts.get? 1 == some "users" then
    if method == "GET" && urlParts.length == 2 then
      (users, getAllUsers users)
    else if method == "GET" && urlParts.length == 3 then
      (users, getUserById users (urlParts.getD 2 ""))
    else if method == "POST" && urlParts.length == 2 then
      match raw with
      | none => (users, invalidJson)
      | some JVal.null => (users, invalidJson)
      | some body => createUser users newId body
    else if method == "PUT" && urlParts.length == 3 then
      match raw with
      | none => (users, invalidJson)
      | some body => updateUser users (urlParts.getD 2 "") body
    else if method == "DELETE" && urlParts.length == 3 then
      deleteUser users (urlParts.getD 2 "")
    else
      (users, ⟨404, RespBody.message "Endpoint not found."⟩)
  else
    (users, ⟨404, RespBody.message "Resource not found."⟩)

/-- `requestListener`: split `req.url` into nonempty segments and route.
The state passed through is the module-level `users` array; `newId` is the
uuidv4() value a create on this request would consume. -/
def requestListener (users : List User) (newId : String) (method : String)
    (url : String) (raw : Option JVal) : List User × Resp :=
  routeParts users newId method (splitPath url) raw

/-- The routing classification of the specification: one constructor per
row of the method/segments table, plus the two 404 classes. -/
inductive Route where
  | listAll : Route
  | getById : String → Route
  | create : Route
  | updateOne : String → Route
  | deleteOne : String → Route
  | endpointMiss : Route
  | resourceMiss : Route
deriving DecidableEq, Repr

/-- The specification's routing table, written from its words: the first
segment must be the resource namespace token `api` and the second the
collection name `users`; then method plus presence of a third (id)
segment select the operation, anything else being an endpoint miss. -/
def classifySpec (method : String) (parts : List String) : Route :=
  if parts.get? 0 == some "api" && parts.get? 1 == some "users" then
    if method == "GET" && parts.length == 2 then Route.listAll
    else if method == "GET" && parts.length == 3 then
      Route.getById (parts.getD 2 "")
    else if method == "POST" && parts.length == 2 then Route.create
    else if method == "PUT" && parts.length == 3 then
      Route.updateOne (parts.getD 2 "")
    else if method == "DELETE" && parts.length == 3 then
      Route.deleteOne (parts.getD 2 "")
    else Route.endpointMiss
  else Route.resourceMiss

/-- The store operation and response each route class denotes. -/
def applyRoute (users : List User) (newId : String) (raw : Option JVal) :
    Route → List User × Resp
  | Route.listAll => (users, getAllUsers users)
  | Route.getById i => (users, getUserById users i)
  | Route.create =>
      match raw with
      | none => (users, invalidJson)
      | some JVal.null => (users, invalidJson)
      | some body => createUser users newId body
  | Route.updateOne i =>
      match raw with
      | none => (users, invalidJson)
      | some body => updateUser users i body
  | Route.deleteOne i => deleteUser users i
  | Route.endpointMiss => (users, ⟨404, RespBody.message "Endpoint not found."⟩)
  | Route.resourceMiss => (users, ⟨404, RespBody.message "Resource not found."⟩)

/-- The worker ids the primary's fork loop produces: Node cluster numbers
workers from 1, so forking `n` workers yields ids 1..n. -/
def forkedWorkerIds (n : Nat) : List Nat :=
  (List.range n).map (· + 1)

/-- The index computed by the load balancer's connection handler:
`(cluster.worker?.id || 0) % Object.keys(cluster.workers).length`. The
handler runs in the primary, where `cluster.worker` is undefined, so the
left operand is 0; `0 % 0` is NaN in JavaScript, modelled as `none`. -/
def selectWorkerId (workerIds : List Nat) : Option Nat :=
  if workerIds.length == 0 then none
  else some (0 % workerIds.length)

/-- The worker the handler actually forwards to: `cluster.workers[workerId]`
exists only when the computed index is one of the live worker ids, and
`worker?.send` is a no-op otherwise. `none` means no message is sent. -/
def forwardTarget (workerIds : List Nat) : Option Nat :=
  match selectWorkerId workerIds with
  | none => none
  | some k => if workerIds.contains k then some k else none

theorem idMatches_of_eq (u : User) (id : String) (h : u.id = JVal.str id) :
    idMatches u.id id = true := by
  simp [idMatches, h]

theorem replaceFirstById_append (pre post : List User) (u : User)
    (id : String) (body : JVal)
    (hu : idMatches u.id id = true)
    (hpre : ∀ v ∈ pre, idMatches v.id id = false) :
    replaceFirstById (pre ++ u :: post) id body
      = some (pre ++ mergeUser u body :: post, mergeUser u body) := by
  induction pre with
  | nil => simp [replaceFirstById, hu]
  | cons p ps ih =>
      have hp := hpre p (by simp)
      have hps : ∀ v ∈ ps, idMatches v.id id = false := fun v hv =>
        hpre v (by simp [hv])
      simp [replaceFirstById, hp, ih hps]

/-- C1: an id failing UUID-format validation makes GET-by-id, PUT and
DELETE respond 400 with the Invalid userId format message, with the store
untouched and the response independent of the store contents. -/
theorem invalid_uuid_short_circuits (users : List User) (id : String)
    (body : JVal) (h : isValidUUID id = false) :
    getUserById users id = ⟨400, RespBody.message "Invalid userId format"⟩ ∧
    updateUser users id body
      = (users, ⟨400, RespBody.message "Invalid userId format."⟩) ∧
    deleteUser users id
      = (users, ⟨400, RespBody.message "Invalid userId format."⟩) := by
  refine ⟨?_, ?_, ?_⟩ <;> simp [getUserById, updateUser, deleteUser, h]

theorem invalid_uuid_short_circuits_witness :
    isValidUUID "not-a-uuid" = false ∧
    getUserById
        [{ id := JVal.str "not-a-uuid", name := JVal.str "n",
           age := JVal.num (JsNum.val 1), hobbies := JVal.arr [] }]
        "not-a-uuid"
      = ⟨400, RespBody.message "Invalid userId format"⟩ :=
  ⟨by decide,
   (invalid_uuid_short_circuits
      [{ id := JVal.str "not-a-uuid", name := JVal.str "n",
         age := JVal.num (JsNum.val 1), hobbies := JVal.arr [] }]
      "not-a-uuid" JVal.null (by decide)).1⟩

/-- C2: a PUT on a valid UUID id present in the store replaces the first
matching record in place by its shallow merge with the body, returns it
with 200, and the merge takes every supplied field from the body while
every omitted field keeps its stored value. -/
theorem put_shallow_merge (pre post : List User) (u : User) (id : String)
    (fields : List (String × JVal))
    (hvalid : isValidUUID id = true)
    (hu : u.id = JVal.str id)
    (hpre : ∀ v ∈ pre, idMatches v.id id = false) :
    updateUser (pre ++ u :: post) id (JVal.obj fields)
      = (pre ++ mergeUser u (JVal.obj fields) :: post,
         ⟨200, RespBody.user (mergeUser u (JVal.obj fields))⟩) ∧
    (∀ v, getField (JVal.obj fields) "name" = some v →
        (mergeUser u (JVal.obj fields)).name = v) ∧
    (getField (JVal.obj fields) "name" = none →
        (mergeUser u (JVal.obj fields)).name = u.name) ∧
    (∀ v, getField (JVal.obj fields) "age" = some v →
        (mergeUser u (JVal.obj fields)).age = v) ∧
    (getField (JVal.obj fields) "age" = none →
        (mergeUser u (JVal.obj fields)).age = u.age) ∧
    (∀ v, getField (JVal.obj fields) "hobbies" = some v →
        (mergeUser u (JVal.obj fields)).hobbies = v) ∧
    (getField (JVal.obj fields) "hobbies" = none →
        (mergeUser u (JVal.obj fields)).hobbies = u.hobbies) := by
  refine ⟨?_, ?_, ?_, ?_, ?_, ?_, ?_⟩
  · unfold updateUser
    simp [hvalid,
      replaceFirstById_append pre post u id (JVal.obj fields)
        (idMatches_of_eq u id hu) hpre]
  all_goals
    first
      | (intro v hv; simp [mergeUser, hv])
      | (intro hv; simp [mergeUser, hv])

theorem put_shallow_merge_witness :
    updateUser [userSample] uuidSample
        (JVal.obj [("name", JVal.str "Jane Doe"), ("age", JVal.num (JsNum.val 31))])
      = ([mergeUser userSample
            (JVal.obj [("name", JVal.str "Jane Doe"), ("age", JVal.num (JsNum.val 31))])],
         ⟨200, RespBody.user (mergeUser userSample
            (JVal.obj [("name", JVal.str "Jane Doe"), ("age", JVal.num (JsNum.val 31))]))⟩) :=
  (put_shallow_merge [] [] userSample uuidSample
      [("name", JVal.str "Jane Doe"), ("age", JVal.num (JsNum.val 31))]
      (by decide) rfl (by simp)).1

/-- C3 counterexample: a create body that supplies an id is not rejected —
it is accepted with 201 — and a body failing the hobbies check draws the
generic message Invalid user data., which names no field. -/
theorem create_validation_counterexample :
    (createUser [] uuidSample
        (JVal.obj [("id", JVal.str "caller-chosen"), ("name", JVal.str "John Doe"),
          ("age", JVal.num (JsNum.val 30)), ("hobbies", JVal.arr [])])).2.status
      = 201 ∧
    createUser [] uuidSample
        (JVal.obj [("name", JVal.str "John Doe"), ("age", JVal.num (JsNum.val 30)),
          ("hobbies", JVal.arr [JVal.str "x", JVal.num (JsNum.val 5)])])
      = ([], ⟨400, RespBody.message "Invalid user data."⟩) := by
  exact ⟨rfl, rfl⟩

/-- C3 amended: create validation checks exactly name, age and hobbies
(it never inspects a caller-supplied id); any failure yields 400 with the
single generic message Invalid user data.; on success a record with the
fresh server-generated id is appended. -/
theorem create_validation_amended (users : List User) (newId : String)
    (body : JVal) :
    (validateUserData body
      = ((typeofString (getField body "name")
            && !trimmedEmpty (getField body "name"))
         && (typeofNumber (getField body "age")
            && !numberIsNaN (getField body "age"))
         && isArrayAllStrings (getField body "hobbies"))) ∧
    (validateUserData body = false →
      createUser users newId body
        = (users, ⟨400, RespBody.message "Invalid user data."⟩)) ∧
    (validateUserData body = true →
      ∃ u : User,
        createUser users newId body = (users ++ [u], ⟨201, RespBody.user u⟩) ∧
        u.id = JVal.str newId) := by
  refine ⟨?_, ?_, ?_⟩
  · cases hts : typeofString (getField body "name") <;>
      cases hte : trimmedEmpty (getField body "name") <;>
      cases htn : typeofNumber (getField body "age") <;>
      cases hnn : numberIsNaN (getField body "age") <;>
      cases has : isArrayAllStrings (getField body "hobbies") <;>
      simp [validateUserData, hts, hte, htn, hnn, has]
  · intro h
    simp [createUser, h]
  · intro h
    refine ⟨{ id := JVal.str newId,
              name := (getField body "name").getD JVal.null,
              age := (getField body "age").getD JVal.null,
              hobbies := (getField body "hobbies").getD JVal.null }, ?_, rfl⟩
    simp [createUser, h]

theorem create_validation_amended_witness :
    createUser [] uuidSample (JVal.obj [("name", JVal.str "   ")])
      = ([], ⟨400, RespBody.message "Invalid user data."⟩) ∧
    (∃ u : User,
      createUser [] uuidSample goodBody = ([] ++ [u], ⟨201, RespBody.user u⟩) ∧
      u.id = JVal.str uuidSample) :=
  ⟨(create_validation_amended [] uuidSample
      (JVal.obj [("name", JVal.str "   ")])).2.1 (by decide),
   (create_validation_amended [] uuidSample goodBody).2.2 (by decide)⟩

/-- C4: the request listener routes every request exactly as the
specification's method/segments table classifies it: the five table rows
dispatch to the five store operations, any other combination under
api/users is an endpoint miss, and anything else a resource miss. -/
theorem router_matches_spec_table (users : List User) (newId : String)
    (method : String) (url : String) (raw : Option JVal) :
    requestListener users newId method url raw
      = applyRoute users newId raw (classifySpec method (splitPath url)) := by
  unfold requestListener routeParts classifySpec
  split_ifs <;> rfl

theorem find_append_of_all_miss (users : List User) (id : String)
    (hmiss : ∀ v ∈ users, idMatches v.id id = false) :
    users.find? (fun v => idMatches v.id id) = none :=
  List.find?_eq_none.mpr fun x hx => by simp [hmiss x hx]

/-- C5: a valid create appends one record carrying the fresh id and
returns it with 201, and reading that id back from the new store returns
the same record with 200. -/
theorem create_get_round_trip (users : List User) (newId : String)
    (body : JVal)
    (hval : validateUserData body = true)
    (hid : isValidUUID newId = true)
    (hfresh : ∀ v ∈ users, idMatches v.id newId = false) :
    ∃ u : User,
      createUser users newId body = (users ++ [u], ⟨201, RespBody.user u⟩) ∧
      getUserById (users ++ [u]) newId = ⟨200, RespBody.user u⟩ := by
  refine ⟨{ id := JVal.str newId,
            name := (getField body "name").getD JVal.null,
            age := (getField body "age").getD JVal.null,
            hobbies := (getField body "hobbies").getD JVal.null }, ?_, ?_⟩
  · simp [createUser, hval]
  · unfold getUserById
    rw [List.find?_append, find_append_of_all_miss users newId hfresh]
    simp [hid, List.find?, idMatches]

theorem create_get_round_trip_witness :
    ∃ u : User,
      createUser [] uuidSample goodBody = ([] ++ [u], ⟨201, RespBody.user u⟩) ∧
      getUserById ([] ++ [u]) uuidSample = ⟨200, RespBody.user u⟩ :=
  create_get_round_trip [] uuidSample goodBody (by decide) (by decide) (by simp)

theorem removeFirstById_append (pre post : List User) (u : User)
    (id : String)
    (hu : idMatches u.id id = true)
    (hpre : ∀ v ∈ pre, idMatches v.id id = false) :
    removeFirstById (pre ++ u :: post) id = some (pre ++ post) := by
  induction pre with
  | nil => simp [removeFirstById, hu]
  | cons p ps ih =>
      have hp := hpre p (by simp)
      have hps : ∀ v ∈ ps, idMatches v.id id = false := fun v hv =>
        hpre v (by simp [hv])
      simp [removeFirstById, hp, ih hps]

/-- C6: deleting a valid UUID id present in the store (whose ids are
unique) removes exactly that record and responds 204 with the empty
object, and a subsequent GET on the id yields 404 with the
User with id ... not found. message. -/
theorem delete_then_get_not_found (pre post : List User) (u : User)
    (id : String)
    (hid : isValidUUID id = true)
    (hu : u.id = JVal.str id)
    (hpre : ∀ v ∈ pre, idMatches v.id id = false)
    (hpost : ∀ v ∈ post, idMatches v.id id = false) :
    deleteUser (pre ++ u :: post) id = (pre ++ post, ⟨204, RespBody.emptyObj⟩) ∧
    getUserById (pre ++ post) id
      = ⟨404, RespBody.message (notFoundMsg id)⟩ := by
  constructor
  · unfold deleteUser
    simp [hid,
      removeFirstById_append pre post u id (idMatches_of_eq u id hu) hpre]
  · have hfind : (pre ++ post).find? (fun v => idMatches v.id id) = none :=
      List.find?_eq_none.mpr fun x hx => by
        rcases List.mem_append.mp hx with h | h
        · simp [hpre x h]
        · simp [hpost x h]
    unfold getUserById
    simp [hid, hfind]

theorem delete_then_get_not_found_witness :
    deleteUser [userSample] uuidSample = ([], ⟨204, RespBody.emptyObj⟩) ∧
    getUserById [] uuidSample
      = ⟨404, RespBody.message (notFoundMsg uuidSample)⟩ :=
  delete_then_get_not_found [] [] userSample uuidSample (by decide) rfl
    (by simp) (by simp)

/-- C7 failing input: a PUT whose body carries an id property rewrites the
stored record's id — the spread in updateUser merges every body property,
id included — so the id of a stored record is not immutable. -/
theorem put_id_overwrite_bug :
    updateUser [userSample] uuidSample
        (JVal.obj [("id", JVal.str "hijacked")])
      = ([{ userSample with id := JVal.str "hijacked" }],
         ⟨200, RespBody.user { userSample with id := JVal.str "hijacked" }⟩) := by
  rfl

/-- C8 failing input: whatever the number of forked workers, the balancer's
computed index 0 is never one of the live cluster worker ids 1..n, so the
connection handler never forwards a request to any worker (and for an
empty worker set it also sends nothing rather than dereferencing). -/
theorem load_balancer_never_forwards :
    (∀ n : Nat, forwardTarget (forkedWorkerIds n) = none) ∧
    forwardTarget (forkedWorkerIds 3) = none := by
  refine ⟨?_, rfl⟩
  intro n
  cases n with
  | zero => rfl
  | succ m => simp [forwardTarget, selectWorkerId, forkedWorkerIds]

theorem createUser_store_on_error (users : List User) (newId : String)
    (body : JVal)
    (h : (createUser users newId body).2.status = 400 ∨
         (createUser users newId body).2.status = 404) :
    (createUser users newId body).1 = users := by
  unfold createUser at *
  cases hv : validateUserData body <;> simp [hv] at h ⊢

theorem updateUser_store_on_error (users : List User) (id : String)
    (body : JVal)
    (h : (updateUser users id body).2.status = 400 ∨
         (updateUser users id body).2.status = 404) :
    (updateUser users id body).1 = users := by
  unfold updateUser at *
  cases hv : isValidUUID id
  · simp [hv]
  · cases hr : replaceFirstById users id body with
    | none => simp [hv, hr]
    | some p => simp [hv, hr] at h

theorem deleteUser_store_on_error (users : List User) (id : String)
    (h : (deleteUser users id).2.status = 400 ∨
         (deleteUser users id).2.status = 404) :
    (deleteUser users id).1 = users := by
  unfold deleteUser at *
  cases hv : isValidUUID id
  · simp [hv]
  · cases hr : removeFirstById users id with
    | none => simp [hv, hr]
    | some l => simp [hv, hr] at h

/-- C9: any request answered with a 400 or a 404 leaves the users store
exactly as it was — no handler mutates before its error checks pass. -/
theorem error_responses_preserve_store (users : List User)
    (newId method url : String) (raw : Option JVal)
    (herr : (requestListener users newId method url raw).2.status = 400 ∨
            (requestListener users newId method url raw).2.status = 404) :
    (requestListener users newId method url raw).1 = users := by
  unfold requestListener routeParts at *
  split_ifs at * <;> try rfl
  · -- POST branch
    cases raw with
    | none => rfl
    | some b =>
        cases b with
        | null => rfl
        | str s => exact createUser_store_on_error users newId (JVal.str s) herr
        | num n => exact createUser_store_on_error users newId (JVal.num n) herr
        | bool b => exact createUser_store_on_error users newId (JVal.bool b) herr
        | arr xs => exact createUser_store_on_error users newId (JVal.arr xs) herr
        | obj fs => exact createUser_store_on_error users newId (JVal.obj fs) herr
  · -- PUT branch
    cases raw with
    | none => rfl
    | some b => exact updateUser_store_on_error users _ b herr
  · -- DELETE branch
    exact deleteUser_store_on_error users _ herr

theorem error_responses_preserve_store_witness :
    (requestListener [userSample] uuidSample "DELETE" "/api/users/zzz" none).1
      = [userSample] :=
  error_responses_preserve_store [userSample] uuidSample "DELETE"
    "/api/users/zzz" none (Or.inl rfl)

theorem splitSlash_append_slash (cs : List Char) (acc : List Char) :
    splitSlash (cs ++ ['/']) acc = splitSlash cs acc ++ [""] := by
  induction cs generalizing acc with
  | nil => rfl
  | cons c rest ih =>
      by_cases h : c = '/'
      · simp [splitSlash, h, ih]
      · simp [splitSlash, h, ih]

theorem toList_append (s t : String) :
    (s ++ t).toList = s.toList ++ t.toList := by
  cases s; cases t; rfl

theorem splitPath_trailing_slash (url : String) :
    splitPath (url ++ "/") = splitPath url := by
  unfold splitPath
  rw [toList_append, show ("/" : String).toList = ['/'] from rfl,
    splitSlash_append_slash, List.filter_append]
  simp

theorem splitSlash_double_slash (cs ds : List Char) (acc : List Char) :
    (splitSlash (cs ++ '/' :: '/' :: ds) acc).filter (fun s => s != "")
      = (splitSlash (cs ++ '/' :: ds) acc).filter (fun s => s != "") := by
  induction cs generalizing acc with
  | nil => simp [splitSlash, List.filter_cons]
  | cons c rest ih =>
      by_cases h : c = '/'
      · have hih := ih ([] : List Char)
        simp [splitSlash, h, List.filter_cons, hih]
      · simp [splitSlash, h, ih]

theorem splitPath_collapse_double_slash (a b : String) :
    splitPath (a ++ "//" ++ b) = splitPath (a ++ "/" ++ b) := by
  unfold splitPath
  have h2 : (a ++ "//" ++ b).toList = a.toList ++ '/' :: '/' :: b.toList := by
    rw [toList_append, toList_append,
      show ("//" : String).toList = ['/', '/'] from rfl]
    simp
  have h1 : (a ++ "/" ++ b).toList = a.toList ++ '/' :: b.toList := by
    rw [toList_append, toList_append,
      show ("/" : String).toList = ['/'] from rfl]
    simp
  rw [h2, h1, splitSlash_double_slash]

/-- C10: routing looks only at the slash-separated nonempty segments of
the URL: appending a trailing slash to any URL never changes the outcome,
collapsing a doubled slash to a single one anywhere in any URL never
changes the outcome (so every URL with repeated slashes routes like its
canonical single-slash form, a doubling at a time), and in particular
/api//users routes like the canonical /api/users. -/
theorem redundant_slash_urls_route_identically (users : List User)
    (newId method url a b : String) (raw : Option JVal) :
    requestListener users newId method (url ++ "/") raw
      = requestListener users newId method url raw ∧
    requestListener users newId method (a ++ "//" ++ b) raw
      = requestListener users newId method (a ++ "/" ++ b) raw ∧
    requestListener users newId method "/api//users" raw
      = requestListener users newId method "/api/users" raw := by
  refine ⟨?_, ?_, rfl⟩
  · unfold requestListener
    rw [splitPath_trailing_slash]
  · unfold requestListener
    rw [splitPath_collapse_double_slash]
